import Mathlib

/-!
Verification of the ID3 v1 tag codec (`src/ID3.py`) against its design notes.

The embedding models the `ID3` class: its in-memory state (`Tag`), the
constructor/parse path (`id3Init`), the dictionary rebuild (`setup_dict`),
the intercepted attribute assignment (`py_setattr`, from `ID3.__setattr__`),
the dictionary assignment (`setItem`, from `ID3.__setitem__`), `zero`,
`delete`, `find_genre`, `legal_genre`, and the persistence path (`write`).

Python dynamic typing matters here: the seven intercepted fields always end
up stored through `bytes(value)` (line 475 of the source), so `bytes(7)` is
seven NUL bytes, `bytes(None)` raises `TypeError`, and `bytes(-1)` raises
`ValueError`.  Values are modeled by `PyV`; raised exceptions by `Err`.
The byte source/sink is a `List Nat` of byte values (0..255).
-/

set_option maxRecDepth 100000

namespace ID3

/-- A Python value as it can appear in the fields or the tag dictionary. -/
inductive PyV where
  | vbytes (b : List Nat)
  | vstr (s : String)
  | vint (n : Int)
  | vnone
deriving DecidableEq, Repr

/-- A raised Python exception, at the granularity the module distinguishes.
`invalidTag` stands for `InvalidTagError` (which wraps caught `IOError`s). -/
inductive Err where
  | invalidTag
  | typeError
  | valueError
  | attributeError
deriving DecidableEq, Repr

/-- The genre table, entries copied verbatim from `ID3.genres` (148 entries,
WinAMP 1.92 list).  Note "Fusion" occurs at both index 30 and index 84. -/
def genres : List String := [
  "Blues", "Classic Rock", "Country", "Dance", "Disco", "Funk",
  "Grunge", "Hip-Hop", "Jazz", "Metal", "New Age", "Oldies", "Other",
  "Pop", "R&B", "Rap", "Reggae", "Rock", "Techno", "Industrial",
  "Alternative", "Ska", "Death Metal", "Pranks", "Soundtrack",
  "Euro-Techno", "Ambient", "Trip-Hop", "Vocal", "Jazz+Funk", "Fusion",
  "Trance", "Classical", "Instrumental", "Acid", "House", "Game",
  "Sound Clip", "Gospel", "Noise", "Alt. Rock", "Bass", "Soul",
  "Punk", "Space", "Meditative", "Instrum. Pop", "Instrum. Rock",
  "Ethnic", "Gothic", "Darkwave", "Techno-Indust.", "Electronic",
  "Pop-Folk", "Eurodance", "Dream", "Southern Rock", "Comedy",
  "Cult", "Gangsta", "Top 40", "Christian Rap", "Pop/Funk", "Jungle",
  "Native American", "Cabaret", "New Wave", "Psychadelic", "Rave",
  "Showtunes", "Trailer", "Lo-Fi", "Tribal", "Acid Punk", "Acid Jazz",
  "Polka", "Retro", "Musical", "Rock & Roll", "Hard Rock", "Folk",
  "Folk/Rock", "National Folk", "Swing", "Fusion", "Bebob", "Latin",
  "Revival", "Celtic", "Bluegrass", "Avantgarde", "Gothic Rock",
  "Progress. Rock", "Psychadel. Rock", "Symphonic Rock", "Slow Rock",
  "Big Band", "Chorus", "Easy Listening", "Acoustic", "Humour",
  "Speech", "Chanson", "Opera", "Chamber Music", "Sonata", "Symphony",
  "Booty Bass", "Primus", "Porn Groove", "Satire", "Slow Jam",
  "Club", "Tango", "Samba", "Folklore", "Ballad", "Power Ballad",
  "Rhythmic Soul", "Freestyle", "Duet", "Punk Rock", "Drum Solo",
  "A Capella", "Euro-House", "Dance Hall", "Goa", "Drum & Bass",
  "Club-House", "Hardcore", "Terror", "Indie", "BritPop", "Negerpunk",
  "Polsk Punk", "Beat", "Christian Gangsta Rap", "Heavy Metal",
  "Black Metal", "Crossover", "Contemporary Christian", "Christian Rock",
  "Merengue", "Salsa", "Thrash Metal", "Anime", "Jpop", "Synthpop"]

/-- `lengthen(string, num_spaces)`: truncate to the width, then right-pad
with spaces (byte 32) to exactly that width. -/
def lengthen (s : List Nat) (num_spaces : Nat) : List Nat :=
  (s.take num_spaces) ++ List.replicate (num_spaces - (s.take num_spaces).length) 32

/-- `(string.whitespace + "\0").encode()`: the byte values removed from the
end of a field by `strip_padding`. -/
def whitespaceNul : List Nat := [32, 9, 10, 11, 12, 13, 0]

/-- `strip_padding(s)`: pop trailing bytes while they are whitespace or NUL. -/
def strip_padding (s : List Nat) : List Nat :=
  (s.reverse.dropWhile (fun c => c ∈ whitespaceNul)).reverse

/-- The magic bytes of a record, `TAG`. -/
def tagMagic : List Nat := [84, 65, 71]

/-- `b"Unknown Genre"`. -/
def unknownGenreBytes : List Nat :=
  [85, 110, 107, 110, 111, 119, 110, 32, 71, 101, 110, 114, 101]

/-- `str.encode()` (default UTF-8); the byte sequence of `String.toUTF8`,
written with structural recursion so it evaluates inside proofs. -/
def utf8Bytes (s : String) : List Nat :=
  (s.data.flatMap String.utf8EncodeChar).map (fun b => b.toNat)

/-- `str.lower()`, modeled character-wise (the table entries and claim
inputs are ASCII, where `Char.toLower` agrees with Python). -/
def strLower (s : String) : String := ⟨s.data.map Char.toLower⟩

/-- `str.upper()`, modeled character-wise (only applied to the ASCII field
names). -/
def strUpper (s : String) : String := ⟨s.data.map Char.toUpper⟩

/-- `bytes(value)` for the values that reach it in this module: identity on
bytes, an all-NUL run of the given length on a non-negative int,
`ValueError` on a negative int, `TypeError` on a str (no encoding given)
or on `None`. -/
def bytesOf : PyV → Except Err (List Nat)
  | .vbytes b => .ok b
  | .vint n => if n < 0 then .error .valueError else .ok (List.replicate n.toNat 0)
  | .vstr _ => .error .typeError
  | .vnone => .error .typeError

/-- `int.from_bytes(b, "big")`. -/
def intFromBytes (b : List Nat) : Nat := b.foldl (fun a x => a * 256 + x) 0

/-- `ID3.legal_genre(genre)`: true iff the argument is an `int` within the
table bounds (a bytes value is never legal). -/
def legal_genre : PyV → Bool
  | .vint n => decide (0 ≤ n) && decide (n < (genres.length : Int))
  | _ => false

/-- The loop of `ID3.find_genre`: walk the table, stop at the first entry
whose lowercased form equals `find_me`, counting the position; a full
traversal ends with the accumulated count equal to the table length. -/
def find_genre_loop (find_me : String) : List String → Nat → Nat
  | [], i => i
  | g :: gs, i => if strLower g = find_me then i else find_genre_loop find_me gs (i + 1)

/-- `ID3.find_genre(genre_to_find)` for a string argument: lowercase the
query, scan the table; if the counter reached the table length return -1,
otherwise return the counter. -/
def find_genre (genre_to_find : String) : Int :=
  let i := find_genre_loop (strLower genre_to_find) genres 0
  if i = genres.length then -1 else (i : Int)

/-- In-memory state of an `ID3` object.  The seven intercepted fields are
byte lists (every store goes through `bytes(value)`); `d` is the ordered
key/value dictionary; the four flags mirror `modified`, `has_tag`,
`had_tag`, `delete_tag`.  (`as_tuple` is fixed at 0, its default, so
`tupleize` is the identity and is not modeled.) -/
structure Tag where
  title : List Nat
  artist : List Nat
  album : List Nat
  year : List Nat
  comment : List Nat
  track : List Nat
  genre : List Nat
  d : List (String × PyV)
  modified : Bool
  has_tag : Bool
  had_tag : Bool
  delete_tag : Bool
deriving DecidableEq, Repr

/-- Python `dict` assignment `d[k] = v`: replace in place if the key exists,
otherwise append (insertion order preserved). -/
def dSet (d : List (String × PyV)) (k : String) (v : PyV) : List (String × PyV) :=
  if d.any (fun p => p.1 = k) then d.map (fun p => if p.1 = k then (k, v) else p)
  else d ++ [(k, v)]

/-- Python `dict` lookup `d.get(k)`. -/
def dGet (d : List (String × PyV)) (k : String) : Option PyV :=
  (d.find? (fun p => p.1 == k)).map (fun p => p.2)

/-- Store a byte value into the named field (the `self.__dict__[name] = ...`
store at the end of `__setattr__`). -/
def setField (t : Tag) (name : String) (b : List Nat) : Tag :=
  if name = "title" then { t with title := b }
  else if name = "artist" then { t with artist := b }
  else if name = "album" then { t with album := b }
  else if name = "year" then { t with year := b }
  else if name = "comment" then { t with comment := b }
  else if name = "track" then { t with track := b }
  else if name = "genre" then { t with genre := b }
  else t

/-- `ID3.__setattr__` restricted to the seven intercepted field names
(assignments to other attributes are plain stores, modeled as direct record
updates at their call sites).  Sets `modified` and `has_tag`, updates the
dictionary per the field, then stores `bytes(value)` into the field.
A `track` assignment of `None` falls into the generic branch (its guard
requires a non-`None` value), putting the raw value under key "TRACK" and
then raising `TypeError` from `bytes(None)`. -/
def py_setattr (t0 : Tag) (name : String) (v : PyV) : Except Err Tag := do
  let t := { t0 with modified := true, has_tag := true }
  if name = "track" ∧ v ≠ PyV.vnone then do
    let b ← bytesOf v
    pure (setField { t with d := dSet t.d "TRACKNUMBER" (.vbytes b) } name b)
  else if name = "genre" then do
    let dv :=
      match v with
      | .vint n =>
          if legal_genre (.vint n) then PyV.vstr (genres.getD n.toNat "")
          else PyV.vbytes unknownGenreBytes
      | _ => PyV.vbytes unknownGenreBytes
    let b ← bytesOf v
    pure (setField { t with d := dSet t.d "GENRE" dv } name b)
  else do
    let b ← bytesOf v
    pure (setField { t with d := dSet t.d (strUpper name) v } name b)

/-- `ID3.setup_dict`: rebuild the dictionary from the fields.  A key is
present only when its field is truthy (non-empty bytes), except GENRE,
always present.  `legal_genre(self.genre)` is applied to the stored bytes
value, which is never an `int`, so the table-lookup branch is dead
(`PyV.vnone` marks it; indexing the table with a bytes value would raise
`TypeError` in the source). -/
def setup_dict (t : Tag) : Tag :=
  { t with d :=
      (if t.title ≠ [] then [("TITLE", PyV.vbytes t.title)] else []) ++
      (if t.artist ≠ [] then [("ARTIST", PyV.vbytes t.artist)] else []) ++
      (if t.album ≠ [] then [("ALBUM", PyV.vbytes t.album)] else []) ++
      (if t.year ≠ [] then [("YEAR", PyV.vbytes t.year)] else []) ++
      (if t.comment ≠ [] then [("COMMENT", PyV.vbytes t.comment)] else []) ++
      [("GENRE", if legal_genre (PyV.vbytes t.genre) then PyV.vnone
                 else PyV.vbytes unknownGenreBytes)] ++
      (if t.track ≠ [] then [("TRACKNUMBER", PyV.vbytes t.track)] else []) }

/-- `ID3.zero`: empty every field, set genre to 255 (unknown, not
blues), then rebuild the dictionary.  `bytes(255)` is 255 NUL bytes. -/
def zero (t : Tag) : Except Err Tag := do
  let t ← py_setattr t "title" (.vbytes [])
  let t ← py_setattr t "artist" (.vbytes [])
  let t ← py_setattr t "album" (.vbytes [])
  let t ← py_setattr t "year" (.vbytes [])
  let t ← py_setattr t "comment" (.vbytes [])
  let t ← py_setattr t "track" (.vbytes [])
  let t ← py_setattr t "genre" (.vint 255)
  pure (setup_dict t)

/-- `ID3.delete`: `zero()`, flag the tag for deletion, clear `has_tag`. -/
def delete (t : Tag) : Except Err Tag := do
  let t ← zero t
  pure { t with delete_tag := true, has_tag := false }

/-- The record with every field empty (the object before `zero()` runs;
each field is created by its first assignment). -/
def emptyTag : Tag :=
  { title := [], artist := [], album := [], year := [], comment := [],
    track := [], genre := [], d := [], modified := false, has_tag := false,
    had_tag := false, delete_tag := false }

/-- The state constructor lines 215-221 leave a fresh object in: `zero()`
applied and then `modified`/`has_tag`/`had_tag` reset to 0 (see
`zero_emptyTag`). -/
def freshTag : Tag :=
  { emptyTag with genre := List.replicate 255 0,
                  d := [("GENRE", PyV.vbytes unknownGenreBytes)] }

lemma zero_emptyTag :
    zero emptyTag = .ok { freshTag with modified := true, has_tag := true } := rfl

/-- The parse branch of `ID3.__init__` (the magic already matched): read the
fixed-width fields out of the trailing 128-byte record `r`, derive the
track from the last two comment bytes (a record without an embedded track
assigns `self.track = None`, which raises `TypeError` in `__setattr__`),
read the genre byte, strip the text fields, rebuild the dictionary, clear
`modified`. -/
def parseTag (r : List Nat) : Except Err Tag := do
  let t := { freshTag with has_tag := true, had_tag := true }
  let t ← py_setattr t "title" (.vbytes ((r.drop 3).take 30))
  let t ← py_setattr t "artist" (.vbytes ((r.drop 33).take 30))
  let t ← py_setattr t "album" (.vbytes ((r.drop 63).take 30))
  let t ← py_setattr t "year" (.vbytes ((r.drop 93).take 4))
  let t ← py_setattr t "comment" (.vbytes ((r.drop 97).take 30))
  let t ←
    if t.comment.getD 28 0 = 0 ∧ t.comment.getD 29 0 ≠ 0 then do
      let t ← py_setattr t "track" (.vint (t.comment.getD 29 0))
      py_setattr t "comment" (.vbytes (t.comment.take 28))
    else
      py_setattr t "track" .vnone
  let t ← py_setattr t "genre" (.vbytes ((r.drop 127).take 1))
  let t ← py_setattr t "title" (.vbytes (strip_padding t.title))
  let t ← py_setattr t "artist" (.vbytes (strip_padding t.artist))
  let t ← py_setattr t "album" (.vbytes (strip_padding t.album))
  let t ← py_setattr t "year" (.vbytes (strip_padding t.year))
  let t ← py_setattr t "comment" (.vbytes (strip_padding t.comment))
  pure { setup_dict t with modified := false }

/-- `ID3.__init__` over a byte source: seek to 128 bytes before the end
(`IOError`, re-raised as `InvalidTagError`, when the source is shorter);
if the next 3 bytes are not the magic `TAG` the source has no record and the
fresh default object is returned; otherwise parse the record. -/
def id3Init (src : List Nat) : Except Err Tag :=
  if src.length < 128 then .error .invalidTag
  else if (src.drop (src.length - 128)).take 3 = tagMagic then
    parseTag (src.drop (src.length - 128))
  else .ok freshTag

/-- `ID3.write` over the tag and the current sink contents; returns the
outcome together with the sink contents afterwards.  A no-op unless
`modified`.  Seek to end-128 if `had_tag` (failing like the constructor on
a short sink), else to the end.  Delete path: truncate at the seek
position, clear `had_tag`.  Write path: if `had_tag`, re-read the magic
and abort with `InvalidTagError` if it changed; serialize the fixed
layout; a track value whose `int.from_bytes` is in (0,255) would be
spliced into the comment, but `comment[:-2] + "\0"` concatenates bytes
with str and raises `TypeError` (the buffered writes before that point are
never flushed, so the sink is unchanged); a genre whose `int.from_bytes`
is in (0,255) is first reset via `self.genre = 255` (which also sets the
dictionary GENRE entry to "Unknown Genre" and stores `bytes(255)`, 255 NUL
bytes); finally `self.genre` is written as-is, however long it is. -/
def write (t : Tag) (file : List Nat) : Except Err Tag × List Nat :=
  if t.modified = false then (.ok t, file)
  else if t.had_tag ∧ file.length < 128 then (.error .invalidTag, file)
  else
    let pos := if t.had_tag then file.length - 128 else file.length
    if t.delete_tag ∧ t.had_tag then
      (.ok { t with had_tag := false, modified := false }, file.take pos)
    else if t.has_tag then
      if t.had_tag ∧ (file.drop pos).take 3 ≠ tagMagic then
        (.error .invalidTag, file)
      else
        if 0 < intFromBytes t.track ∧ intFromBytes t.track < 255 then
          (.error .typeError, file)
        else
          let resetGenre : Bool :=
            decide (0 < intFromBytes t.genre) && decide (intFromBytes t.genre < 255)
          let genre1 := if resetGenre then List.replicate 255 0 else t.genre
          let d1 := if resetGenre then dSet t.d "GENRE" (PyV.vbytes unknownGenreBytes)
                    else t.d
          let payload := tagMagic ++ lengthen t.title 30 ++ lengthen t.artist 30 ++
                         lengthen t.album 30 ++ lengthen t.year 4 ++
                         lengthen t.comment 30 ++ genre1
          (.ok { t with genre := genre1, d := d1, had_tag := true, modified := false },
           file.take pos ++ payload ++ file.drop (pos + payload.length))
    else (.ok { t with modified := false }, file)

/-- The keys `ID3.__setitem__` accepts. -/
def allowedKeys : List String :=
  ["TITLE", "ARTIST", "ALBUM", "YEAR", "COMMENT", "TRACKNUMBER", "GENRE"]

/-- `ID3.__setitem__`: any key outside `allowedKeys` returns immediately
with no effect.  TRACKNUMBER takes an int (or a numeric string through
`locale.atoi`), stores it through the `track` attribute, then overwrites
the dictionary entry with the original value.  GENRE with an int stores it
and resolves the name if legal, else "Unknown Genre"; with a string it
stores the result of `find_genre` — a miss assigns -1, raising `ValueError`
from `bytes(-1)` (a non-int, non-str genre stringifies to something the
table does not contain and takes the same path).  Text keys store the
UTF-8 encoding directly (bypassing `__setattr__`) and mirror it in the
dictionary; a non-str raises `AttributeError` from `v.encode()`. -/
def setItemAllowed (t : Tag) (k : String) (v : PyV) : Except Err Tag :=
  if k = "TRACKNUMBER" then do
    let n : Int ←
      match v with
      | .vint n => pure n
      | .vstr s =>
          match s.toNat? with
          | some m => pure (m : Int)
          | none => .error .valueError
      | _ => .error .typeError
    let t ← py_setattr t "track" (.vint n)
    pure { t with d := dSet t.d "TRACKNUMBER" v, modified := true, has_tag := true }
  else if k = "GENRE" then
    match v with
    | .vint n => do
        let t ← py_setattr t "genre" (.vint n)
        if legal_genre (.vint n) then
          pure { t with d := dSet t.d "GENRE" (.vstr (genres.getD n.toNat "")),
                        modified := true, has_tag := true }
        else
          pure { t with d := dSet t.d "GENRE" (.vbytes unknownGenreBytes),
                        modified := true, has_tag := true }
    | .vstr s => do
        let t ← py_setattr t "genre" (.vint (find_genre s))
        pure { t with d := dSet t.d "GENRE" v, modified := true, has_tag := true }
    | _ => .error .valueError
  else
    match v with
    | .vstr s =>
        .ok { setField t (strLower k) (utf8Bytes s) with
              d := dSet t.d k (.vbytes (utf8Bytes s)),
              modified := true, has_tag := true }
    | _ => .error .attributeError

/-- `ID3.__setitem__`: any key outside `allowedKeys` returns immediately
with no effect at all; the recognized keys are handled by
`setItemAllowed`. -/
def setItem (t : Tag) (k : String) (v : PyV) : Except Err Tag :=
  if k ∉ allowedKeys then .ok t else setItemAllowed t k v

/-! ## Concrete inputs used by the claims -/

/-- A 128-byte source that is exactly one record: blank (space) text
fields, an embedded track (comment bytes 28/29 are `0, 5`), genre byte 17
(the table entry "Rock"). -/
def srcRock : List Nat :=
  tagMagic ++ List.replicate 30 32 ++ List.replicate 30 32 ++ List.replicate 30 32 ++
  List.replicate 4 32 ++ (List.replicate 28 32 ++ [0, 5]) ++ [17]

/-- Like `srcRock` but with genre byte 0 ("Blues"), so the genre reset in
`write` does not fire and the written record stays 128 bytes long. -/
def srcG0 : List Nat :=
  tagMagic ++ List.replicate 94 32 ++ List.replicate 28 32 ++ [0, 5] ++ [0]

/-- Open `srcRock` and set TITLE through the dictionary interface (this
marks the tag modified so that `write` has work to do). -/
def tagRockTitled : Except Err Tag :=
  match id3Init srcRock with
  | .ok t => setItem t "TITLE" (.vstr "A")
  | .error e => .error e

/-- `write` on the titled tag, over the unchanged source bytes. -/
def writeRock : Except Err Tag × List Nat :=
  match tagRockTitled with
  | .ok t => write t srcRock
  | .error e => (.error e, srcRock)

/-- Assign all seven fields through the dictionary interface, each value
within its maximum length and free of NUL bytes. -/
def assignAll (t : Tag) : Except Err Tag := do
  let t ← setItem t "TITLE" (.vstr "A")
  let t ← setItem t "ARTIST" (.vstr "B")
  let t ← setItem t "ALBUM" (.vstr "C")
  let t ← setItem t "YEAR" (.vstr "2001")
  let t ← setItem t "COMMENT" (.vstr "hi")
  let t ← setItem t "GENRE" (.vint 17)
  setItem t "TRACKNUMBER" (.vint 5)

/-- Open `srcRock`, assign all seven fields. -/
def assigned : Except Err Tag := do
  let t0 ← id3Init srcRock
  assignAll t0

/-- The round trip of claim C2: open, assign, write, re-open the sink. -/
def roundTrip : Except Err Tag := do
  let t1 ← assigned
  match write t1 srcRock with
  | (.ok _, f2) => id3Init f2
  | (.error e, _) => .error e

/-- Open `srcG0` and set TRACKNUMBER to 7 through the dictionary. -/
def trackSet : Except Err Tag := do
  let t0 ← id3Init srcG0
  setItem t0 "TRACKNUMBER" (.vint 7)

/-- `write` on the track-7 tag, over the unchanged source bytes. -/
def trackWritten : Except Err Tag × List Nat :=
  match trackSet with
  | .ok t => write t srcG0
  | .error e => (.error e, srcG0)

/-- Re-open the sink written by `trackWritten`. -/
def trackReread : Except Err Tag :=
  match trackWritten with
  | (.ok _, f) => id3Init f
  | (.error e, _) => .error e

/-- Open `srcRock` and call `delete()`. -/
def tagRockDeleted : Except Err Tag :=
  match id3Init srcRock with
  | .ok t => delete t
  | .error e => .error e

/-- `srcRock` with its first magic byte externally overwritten, so the
trailing 128 bytes no longer start with `TAG`. -/
def corrupted : List Nat := 99 :: srcRock.tail

/-- `write` on the deleted tag over the externally corrupted sink. -/
def staleDeleteWrite : Except Err Tag × List Nat :=
  match tagRockDeleted with
  | .ok t => write t corrupted
  | .error e => (.error e, corrupted)

/-- The state `delete` leaves behind for any starting tag: every field
empty, genre 255 NUL bytes, the dictionary reduced to the GENRE default,
`modified` and `delete_tag` set, `has_tag` cleared, `had_tag` kept. -/
def deletedState (t : Tag) : Tag :=
  { t with title := [], artist := [], album := [], year := [], comment := [],
           track := [], genre := List.replicate 255 0,
           d := [("GENRE", PyV.vbytes unknownGenreBytes)],
           modified := true, has_tag := false, delete_tag := true }

lemma delete_eq (t : Tag) : delete t = .ok (deletedState t) := rfl

/-- `delete()` followed by `write()`. -/
def deleteThenWrite (t : Tag) (file : List Nat) : Except Err Tag × List Nat :=
  match delete t with
  | .ok td => write td file
  | .error e => (.error e, file)

/-! ## Claims -/

/-- Claim C1 (code_bug evidence).  A tag read with stored genre byte 17
(a value in [0,255]) does not commit 17: `write` first resets the stored
genre (because `0 < int.from_bytes(genre) < 255`) to `bytes(255)` — 255
NUL bytes — and then writes those, so the byte at record offset 127 is 0
and the sink grows to 382 bytes. -/
theorem C1_genre_write_bug :
    tagRockTitled.map (fun t => t.genre) = Except.ok [17] ∧
    writeRock.1.map (fun t => t.genre) = Except.ok (List.replicate 255 0) ∧
    List.replicate 255 0 ≠ ([17] : List Nat) ∧
    writeRock.2.length = 382 ∧ writeRock.2.getD 127 999 = 0 :=
  ⟨rfl, rfl, by decide, rfl, rfl⟩

/-- Claim C2 (code_bug evidence).  Opening a 128-byte record, assigning
all seven fields (each within its maximum length, no NUL bytes), writing
and re-opening does not return the written values: the genre is
serialized as `bytes(17)` (17 NUL bytes), the rewritten sink is 144 bytes
whose trailing 128 bytes carry no magic, and re-opening yields the fresh
default tag with no TITLE key and an empty title. -/
theorem C2_roundtrip_bug :
    assigned.map (fun t => t.title) = Except.ok [65] ∧
    roundTrip = Except.ok freshTag ∧
    freshTag.title = [] ∧ dGet freshTag.d "TITLE" = none :=
  ⟨rfl, rfl, rfl, rfl⟩

/-- Claim C3 counterexample.  A tag opened from `srcRock` and then
`delete()`-flagged is modified and `had_tag` is true; with the sink
externally corrupted (magic no longer `TAG`), `write` does not raise: it
truncates the sink to 0 bytes, altering the externally changed content. -/
theorem C3_counterexample :
    tagRockDeleted.map (fun t => (t.modified, t.had_tag)) = Except.ok (true, true) ∧
    (corrupted.drop (corrupted.length - 128)).take 3 ≠ tagMagic ∧
    staleDeleteWrite.1.toOption.isSome = true ∧
    staleDeleteWrite.2 = [] ∧ corrupted ≠ [] :=
  ⟨rfl, by decide, rfl, rfl, by decide⟩

/-- Claim C3 (amended).  For a modified tag that still carries a record to
write (`has_tag`) and is not flagged for deletion, with `had_tag` set, a
sink whose 3 bytes at 128 before the end no longer equal `TAG` makes
`write` raise `InvalidTagError` and leave the sink byte-for-byte
unchanged. -/
theorem C3_stale_write (t : Tag) (file : List Nat)
    (hm : t.modified = true) (hh : t.had_tag = true) (hp : t.has_tag = true)
    (hd : t.delete_tag = false)
    (hmagic : (file.drop (file.length - 128)).take 3 ≠ tagMagic) :
    write t file = (.error .invalidTag, file) := by
  obtain ⟨ti, ar, al, yr, cm, tr, ge, d, mo, hs, hdt, dl⟩ := t
  simp only at hm hh hp hd
  subst hm hh hp hd
  by_cases hlen : file.length < 128
  · simp [write, hlen]
  · simp [write, hlen, hmagic]

theorem C3_stale_witness :
    write { freshTag with modified := true, has_tag := true, had_tag := true }
          (List.replicate 128 0) =
      (.error .invalidTag, List.replicate 128 0) :=
  C3_stale_write _ _ rfl rfl rfl rfl (by decide)

/-- Claim C4 (code_bug evidence).  Setting TRACKNUMBER to 7 stores
`bytes(7)` (seven NUL bytes, numeric value 0), so `write` never embeds the
track: the serialized comment bytes 28 and 29 (sink offsets 125, 126) are
both the space 32 instead of 0 and 7, and re-opening the written record
raises `TypeError` (from `bytes(None)` in the no-track read path) instead
of yielding track 7. -/
theorem C4_track_bug :
    trackSet.map (fun t => t.track) = Except.ok (List.replicate 7 0) ∧
    trackWritten.2.length = 128 ∧
    trackWritten.2.getD 125 999 = 32 ∧ trackWritten.2.getD 126 999 = 32 ∧
    trackReread = .error .typeError :=
  ⟨rfl, rfl, rfl, rfl, rfl⟩

/-- Claim C5.  `delete()` then `write()`: when a record existed on disk the
sink is truncated to its prefix, exactly 128 bytes shorter, and `had_tag`
is cleared; when none existed the sink is returned untouched. -/
theorem C5_delete_truncation (t : Tag) (file : List Nat) (h : 128 ≤ file.length) :
    (t.had_tag = true →
        deleteThenWrite t file =
          (.ok { deletedState t with had_tag := false, modified := false },
           file.take (file.length - 128)) ∧
        (file.take (file.length - 128)).length + 128 = file.length) ∧
    (t.had_tag = false →
        deleteThenWrite t file = (.ok { deletedState t with modified := false }, file)) := by
  have hnl : ¬ file.length < 128 := by omega
  obtain ⟨ti, ar, al, yr, cm, tr, ge, d, mo, hs, hdt, dl⟩ := t
  constructor
  · intro ht
    simp only at ht
    subst ht
    refine ⟨?_, by rw [List.length_take]; omega⟩
    simp [deleteThenWrite, delete_eq, write, deletedState, hnl]
  · intro ht
    simp only at ht
    subst ht
    simp [deleteThenWrite, delete_eq, write, deletedState, hnl]

theorem C5_witness :
    ((({ freshTag with had_tag := true } : Tag).had_tag = true →
        deleteThenWrite { freshTag with had_tag := true } (List.replicate 130 1) =
          (.ok { deletedState { freshTag with had_tag := true } with
                 had_tag := false, modified := false },
           (List.replicate 130 1).take ((List.replicate 130 1).length - 128)) ∧
        ((List.replicate 130 1).take ((List.replicate 130 1).length - 128)).length + 128 =
          (List.replicate 130 1).length) ∧
     (({ freshTag with had_tag := true } : Tag).had_tag = false →
        deleteThenWrite { freshTag with had_tag := true } (List.replicate 130 1) =
          (.ok { deletedState { freshTag with had_tag := true } with modified := false },
           List.replicate 130 1))) ∧
    ((freshTag.had_tag = true →
        deleteThenWrite freshTag (List.replicate 130 1) =
          (.ok { deletedState freshTag with had_tag := false, modified := false },
           (List.replicate 130 1).take ((List.replicate 130 1).length - 128)) ∧
        ((List.replicate 130 1).take ((List.replicate 130 1).length - 128)).length + 128 =
          (List.replicate 130 1).length) ∧
     (freshTag.had_tag = false →
        deleteThenWrite freshTag (List.replicate 130 1) =
          (.ok { deletedState freshTag with modified := false }, List.replicate 130 1))) :=
  ⟨C5_delete_truncation _ _ (by decide), C5_delete_truncation _ _ (by decide)⟩

/-- Claim C6 (code_bug evidence).  The record in `srcRock` has genre byte
17, a legal table index whose entry is "Rock", yet after a successful
parse the GENRE view entry is the literal bytes "Unknown Genre": the read
path stores the genre as a 1-byte bytes object and `legal_genre` only
accepts ints, so the table branch of `setup_dict` can never fire. -/
theorem C6_genre_view_bug :
    legal_genre (PyV.vint 17) = true ∧
    genres.getD 17 "" = "Rock" ∧
    (id3Init srcRock).map (fun t => t.genre) = Except.ok [17] ∧
    (id3Init srcRock).map (fun t => dGet t.d "GENRE") =
      Except.ok (some (PyV.vbytes unknownGenreBytes)) :=
  ⟨rfl, rfl, rfl, rfl⟩

/-- Claim C7.  A source of at least 128 bytes whose trailing record does
not begin with `TAG` opens without error to the fresh default tag:
`had_tag` false, not modified, and the key view holding exactly the single
entry GENRE mapped to the bytes "Unknown Genre". -/
theorem C7_no_record_default (src : List Nat) (h1 : 128 ≤ src.length)
    (h2 : (src.drop (src.length - 128)).take 3 ≠ tagMagic) :
    id3Init src = .ok freshTag ∧ freshTag.had_tag = false ∧
    freshTag.modified = false ∧
    freshTag.d = [("GENRE", PyV.vbytes unknownGenreBytes)] := by
  refine ⟨?_, rfl, rfl, rfl⟩
  rw [id3Init, if_neg (by omega), if_neg h2]

theorem C7_witness :
    id3Init (List.replicate 200 0) = .ok freshTag ∧ freshTag.had_tag = false ∧
    freshTag.modified = false ∧
    freshTag.d = [("GENRE", PyV.vbytes unknownGenreBytes)] :=
  C7_no_record_default (List.replicate 200 0) (by decide) (by decide)

/-- Claim C8.  Any source shorter than 128 bytes makes the constructor
raise `InvalidTagError` (the seek to end minus 128 fails), producing no
tag. -/
theorem C8_short_source (src : List Nat) (h : src.length < 128) :
    id3Init src = .error .invalidTag := by
  rw [id3Init, if_pos h]

theorem C8_witness : id3Init (List.replicate 50 0) = .error .invalidTag :=
  C8_short_source (List.replicate 50 0) (by decide)

/-- Claim C10.  `__setitem__` with a key outside the seven recognized ones
returns immediately: no error, and the entire tag state — fields,
dictionary, flags — is unchanged. -/
theorem C10_setitem_noop (t : Tag) (k : String) (v : PyV)
    (hk : k ∉ allowedKeys) : setItem t k v = .ok t := by
  rw [setItem, if_pos hk]


theorem C10_witness : setItem freshTag "VERSION" (.vstr "x") = .ok freshTag :=
  C10_setitem_noop freshTag "VERSION" (.vstr "x") (by decide)

/-- If no entry of the remaining table matches, the loop of `find_genre`
traverses it completely and returns the starting counter plus its
length. -/
lemma find_genre_loop_all_miss (f : String) :
    ∀ (l : List String) (i : Nat), (∀ g ∈ l, strLower g ≠ f) →
      find_genre_loop f l i = i + l.length := by
  intro l
  induction l with
  | nil => intro i _; simp [find_genre_loop]
  | cons g gs ih =>
      intro i hall
      show (if strLower g = f then i else find_genre_loop f gs (i + 1)) = _
      rw [if_neg (hall g (List.mem_cons_self g gs)),
          ih (i + 1) (fun x hx => hall x (List.mem_cons_of_mem g hx))]
      simp [List.length_cons]
      omega

/-- If position `j` holds the first matching entry, the loop returns the
starting counter plus `j`. -/
lemma find_genre_loop_first (f : String) :
    ∀ (l : List String) (j i : Nat), j < l.length → strLower (l.getD j "") = f →
      (∀ k, k < j → strLower (l.getD k "") ≠ f) →
      find_genre_loop f l i = i + j := by
  intro l
  induction l with
  | nil => intro j i hj _ _; simp at hj
  | cons g gs ih =>
      intro j i hj hmatch hmiss
      show (if strLower g = f then i else find_genre_loop f gs (i + 1)) = _
      cases j with
      | zero =>
          rw [if_pos (by simpa using hmatch)]
          omega
      | succ j =>
          have hg : strLower g ≠ f := by simpa using hmiss 0 (Nat.succ_pos j)
          rw [if_neg hg,
              ih j (i + 1) (by simpa using hj) (by simpa using hmatch)
                 (fun k hk => by simpa using hmiss (k + 1) (Nat.succ_lt_succ hk))]
          omega

/-- Claim C9.  `find_genre` lowercases its query and every table entry
before comparing, so rock, ROCK and Rock all return 17; a query matching
no entry case-insensitively returns -1; and when a match exists, the
result is the position of the first matching entry. -/
theorem C9_find_genre (s : String) :
    (find_genre "rock" = 17 ∧ find_genre "ROCK" = 17 ∧ find_genre "Rock" = 17) ∧
    ((∀ g ∈ genres, strLower g ≠ strLower s) → find_genre s = -1) ∧
    (∀ i : Nat, i < genres.length → strLower (genres.getD i "") = strLower s →
        (∀ j, j < i → strLower (genres.getD j "") ≠ strLower s) →
        find_genre s = (i : Int)) := by
  refine ⟨⟨by decide, by decide, by decide⟩, ?_, ?_⟩
  · intro hall
    simp only [find_genre]
    rw [find_genre_loop_all_miss (strLower s) genres 0 hall]
    simp
  · intro i hi hm hmiss
    simp only [find_genre]
    rw [find_genre_loop_first (strLower s) genres i 0 hi hm hmiss]
    rw [if_neg (by omega)]
    simp

theorem C9_witness :
    find_genre "FUSION" = 30 ∧ find_genre "zzz" = -1 :=
  ⟨(C9_find_genre "FUSION").2.2 30 (by decide) (by decide) (by decide),
   (C9_find_genre "zzz").2.1 (by decide)⟩

end ID3
